import Mathlib

/-!
Verification of the matching and ranking core of a two-sided
journalist/company matchmaking platform.

The Python source is shallowly embedded: SQLAlchemy rows become
structures, the database session becomes an explicit `DB` record of
tables, table queries become list filters (`.first()` is `head?`),
Python floats are modelled as real numbers, and FastAPI endpoints
become functions into `Except ApiError`.
-/

namespace AIPR

/-- A taxonomy topic (src/topics/models.py: `Topic`). -/
structure Topic where
  id : String
  name : String
  display_name : String
  category : String
deriving DecidableEq

/-- Minimal topic info embedded in match results
(src/topics/schemas.py: `TopicBrief`). -/
structure TopicBrief where
  id : String
  name : String
  display_name : String
deriving DecidableEq

/-- A journalist profile (src/journalists/models.py: `JournalistProfile`);
enum-valued columns are modelled as strings, timestamps are omitted. -/
structure JournalistProfile where
  id : String
  user_id : String
  full_name : String
  bio : Option String
  outlet_name : String
  outlet_type : String
  beat_description : String
  is_accepting_pitches : Bool
  topics : List Topic
deriving DecidableEq

/-- A company profile (src/companies/models.py: `CompanyProfile`). -/
structure CompanyProfile where
  id : String
  user_id : String
  company_name : String
  description : Option String
  industry : String
  company_size : String
  is_active : Bool
  topics : List Topic
deriving DecidableEq

/-- src/embeddings/models.py: `ProfileType`. -/
inductive ProfileType where
  | journalist
  | company
deriving DecidableEq

/-- A stored profile embedding (src/embeddings/models.py:
`ProfileEmbedding`); the JSON float vector is a list of reals. -/
structure ProfileEmbedding where
  profile_type : ProfileType
  profile_id : String
  embedding : List ℝ
  source_text : String

/-- The persistent store: one list per table. -/
structure DB where
  topics : List Topic
  journalists : List JournalistProfile
  companies : List CompanyProfile
  embeddings : List ProfileEmbedding

/-! ## Deterministic matching rules (src/matching/rules.py) -/

/-- `get_topic_overlap`: `ids_a = {t.id for t in topics_a}` followed by
`[t for t in topics_b if t.id in ids_a]`. -/
def get_topic_overlap (topics_a topics_b : List Topic) : List Topic :=
  topics_b.filter (fun t => topics_a.any (fun s => decide (s.id = t.id)))

/-- `journalist_is_eligible`: accepting pitches and at least one topic. -/
def journalist_is_eligible (j : JournalistProfile) : Bool :=
  j.is_accepting_pitches && decide (0 < j.topics.length)

/-- `company_is_eligible`: active and at least one topic. -/
def company_is_eligible (c : CompanyProfile) : Bool :=
  c.is_active && decide (0 < c.topics.length)

/-- `is_match`: both sides eligible and non-empty overlap; returns the
matched flag together with the overlapping topics. -/
def is_match (company : CompanyProfile) (journalist : JournalistProfile) :
    Bool × List Topic :=
  if !company_is_eligible company then (false, [])
  else if !journalist_is_eligible journalist then (false, [])
  else
    let overlap := get_topic_overlap company.topics journalist.topics
    if overlap.isEmpty then (false, []) else (true, overlap)

/-- The English list join used by `generate_match_reason`: one item plain,
two items joined with " and ", three or more as "A, B, and C".  (In the
source the final branch indexes `topic_names[-1]`, which faults on an
empty list; callers only pass non-empty overlaps.  The model totalises
the empty case with `getLastD`.) -/
def joinTopicNames : List String → String
  | [n] => n
  | [n₁, n₂] => n₁ ++ " and " ++ n₂
  | ns => String.intercalate ", " ns.dropLast ++ ", and " ++ ns.getLastD ""

/-- `generate_match_reason`: the template sentence referencing the
journalist, their outlet, the joined topic names and the company. -/
def generate_match_reason (company : CompanyProfile)
    (journalist : JournalistProfile) (matched_topics : List Topic) : String :=
  journalist.full_name ++ " at " ++ journalist.outlet_name ++ " covers " ++
    joinTopicNames (matched_topics.map (·.display_name)) ++
    ", which aligns with " ++ company.company_name ++ "\x27s expertise."

/-! ## Matching service (src/matching/service.py) -/

/-- `src/companies/service.py: get_profile_by_user_id` —
`db.query(CompanyProfile).filter(user_id == ...).first()`. -/
def get_company_profile (db : DB) (user_id : String) : Option CompanyProfile :=
  (db.companies.filter (fun c => decide (c.user_id = user_id))).head?

/-- `src/journalists/service.py: get_profile_by_user_id`. -/
def get_journalist_profile (db : DB) (user_id : String) :
    Option JournalistProfile :=
  (db.journalists.filter (fun j => decide (j.user_id = user_id))).head?

/-- A rule-based match entry (src/matching/schemas.py: `JournalistMatch`). -/
structure JournalistMatch where
  journalist_id : String
  full_name : String
  outlet_name : String
  outlet_type : String
  beat_description : String
  matched_topics : List TopicBrief
  match_reason : String
deriving DecidableEq

/-- A rule-based match entry (src/matching/schemas.py: `CompanyMatch`). -/
structure CompanyMatch where
  company_id : String
  company_name : String
  industry : String
  company_size : String
  description : Option String
  matched_topics : List TopicBrief
  match_reason : String
deriving DecidableEq

/-- `TopicBrief.model_validate` on a topic row. -/
def toBrief (t : Topic) : TopicBrief :=
  { id := t.id, name := t.name, display_name := t.display_name }

/-- The match-building loop of `find_journalists_for_company`: scan the
journalists who are accepting pitches and keep those for which `is_match`
holds, attaching the generated reason. -/
def journalist_match_list (db : DB) (company : CompanyProfile) :
    List JournalistMatch :=
  (db.journalists.filter (fun j => j.is_accepting_pitches)).filterMap
    (fun journalist =>
      let r := is_match company journalist
      if r.1 then
        some { journalist_id := journalist.id,
               full_name := journalist.full_name,
               outlet_name := journalist.outlet_name,
               outlet_type := journalist.outlet_type,
               beat_description := journalist.beat_description,
               matched_topics := r.2.map toBrief,
               match_reason := generate_match_reason company journalist r.2 }
      else none)

/-- The match-building loop of `find_companies_for_journalist`. -/
def company_match_list (db : DB) (journalist : JournalistProfile) :
    List CompanyMatch :=
  (db.companies.filter (fun c => c.is_active)).filterMap
    (fun company =>
      let r := is_match company journalist
      if r.1 then
        some { company_id := company.id,
               company_name := company.company_name,
               industry := company.industry,
               company_size := company.company_size,
               description := company.description,
               matched_topics := r.2.map toBrief,
               match_reason := generate_match_reason company journalist r.2 }
      else none)

/-- `find_journalists_for_company`: build all matches, then slice
`matches[(page-1)*page_size : (page-1)*page_size + page_size]`;
returns `(paginated, total)`. -/
def find_journalists_for_company (db : DB) (company_user_id : String)
    (page page_size : ℕ) : List JournalistMatch × ℕ :=
  match get_company_profile db company_user_id with
  | none => ([], 0)
  | some company =>
      let matchList := journalist_match_list db company
      (((matchList.drop ((page - 1) * page_size)).take page_size),
        matchList.length)

/-- `find_companies_for_journalist`. -/
def find_companies_for_journalist (db : DB) (journalist_user_id : String)
    (page page_size : ℕ) : List CompanyMatch × ℕ :=
  match get_journalist_profile db journalist_user_id with
  | none => ([], 0)
  | some journalist =>
      let matchList := company_match_list db journalist
      (((matchList.drop ((page - 1) * page_size)).take page_size),
        matchList.length)

/-! ## Matching router (src/matching/router.py) -/

/-- The distinct caller-actionable error conditions raised by the API
layer (each corresponds to a distinct HTTPException detail string). -/
inductive ApiError where
  | missingProfile
  | emptyTopicSet
deriving DecidableEq

/-- Paginated match results (src/matching/schemas.py: `MatchResults`). -/
structure MatchResults where
  matchList : List JournalistMatch
  total : ℕ
  page : ℕ
  page_size : ℕ
  has_more : Bool
deriving DecidableEq

/-- `GET /matches/journalists` for a company-type caller: guidance errors
are raised only when `total == 0 and page == 1`; otherwise the results
are returned with `has_more = page * page_size < total`. -/
def get_journalist_matches (db : DB) (user_id : String)
    (page page_size : ℕ) : Except ApiError MatchResults :=
  let pr := find_journalists_for_company db user_id page page_size
  if pr.2 = 0 ∧ page = 1 then
    match get_company_profile db user_id with
    | none => .error .missingProfile
    | some profile =>
        if profile.topics.isEmpty then .error .emptyTopicSet
        else .ok { matchList := pr.1, total := pr.2, page := page,
                   page_size := page_size,
                   has_more := decide (page * page_size < pr.2) }
  else .ok { matchList := pr.1, total := pr.2, page := page,
             page_size := page_size,
             has_more := decide (page * page_size < pr.2) }

/-! ## Embedding generator (src/embeddings/generator.py)

`sentence_transformers` and `hashlib` are external collaborators; the
model's `encode` and the first-8-hex-chars value of `sha256` are passed
as function parameters, and the process-wide fallback flag set by
`get_model` is passed as a boolean. -/

def EMBEDDING_DIMENSION : ℕ := 384

/-- `_hash_based_embedding`: for each index `i` below the dimension,
hash `f"{text}_{i}"` and map the leading 32 bits to `[-1, 1]` via
`v / 0xFFFFFFFF * 2 - 1`. -/
noncomputable def hash_based_embedding (sha256head : String → ℕ)
    (text : String) : List ℝ :=
  (List.range EMBEDDING_DIMENSION).map
    (fun i => ((sha256head (text ++ "_" ++ toString i) : ℝ) / 4294967295) * 2 - 1)

/-- `generate_embedding`: the zero vector for empty/whitespace-only text
(`not text or not text.strip()`), otherwise the model encoding when the
model is available and the hash fallback when it is not. -/
noncomputable def generate_embedding (encode : String → List ℝ)
    (sha256head : String → ℕ) (useFallback : Bool) (text : String) :
    List ℝ :=
  if text = "" ∨ text.trim = "" then List.replicate EMBEDDING_DIMENSION 0
  else if useFallback then hash_based_embedding sha256head text
  else encode text

/-- Dot product of two float vectors (`np.dot` on equal-length inputs). -/
def dotList : List ℝ → List ℝ → ℝ
  | a :: as, b :: bs => a * b + dotList as bs
  | _, _ => 0

/-- `cosine_similarity`: `dot(a,b) / (norm(a) * norm(b))`, and `0.0`
when either Euclidean norm is zero. -/
noncomputable def cosine_similarity (vec_a vec_b : List ℝ) : ℝ :=
  let norm_a := Real.sqrt (dotList vec_a vec_a)
  let norm_b := Real.sqrt (dotList vec_b vec_b)
  if norm_a = 0 ∨ norm_b = 0 then 0
  else dotList vec_a vec_b / (norm_a * norm_b)

/-- `build_profile_text_journalist`; `if bio:` is false for both `None`
and the empty string. -/
def build_profile_text_journalist (full_name outlet_name beat_description :
    String) (bio : Option String) : String :=
  let parts := [full_name ++ " is a journalist at " ++ outlet_name ++ ".",
                "Beat: " ++ beat_description]
  let parts := match bio with
    | some b => if b = "" then parts else parts ++ ["Bio: " ++ b]
    | none => parts
  String.intercalate " " parts

/-- `build_profile_text_company`. -/
def build_profile_text_company (company_name industry : String)
    (description : Option String) : String :=
  let parts := [company_name ++ " is a company in the " ++ industry ++
                " industry."]
  let parts := match description with
    | some d => if d = "" then parts else parts ++ ["Description: " ++ d]
    | none => parts
  String.intercalate " " parts

/-! ## Embedding service (src/embeddings/service.py) -/

/-- `get_embedding`: first stored embedding for `(profile_type, profile_id)`. -/
def get_embedding (db : DB) (profile_type : ProfileType)
    (profile_id : String) : Option ProfileEmbedding :=
  (db.embeddings.filter (fun e =>
    decide (e.profile_type = profile_type ∧ e.profile_id = profile_id))).head?

/-- The descending-by-score order used to model
`results.sort(key=lambda x: x[1], reverse=True)`; a stable sort under
this relation agrees with Python's stable descending sort. -/
def simGE {α : Type} (p q : α × ℝ) : Prop := q.2 ≤ p.2

noncomputable instance {α : Type} : DecidableRel (@simGE α) :=
  fun p q => Real.decidableLE q.2 p.2

instance {α : Type} : IsTotal (α × ℝ) simGE :=
  ⟨fun p q => le_total q.2 p.2⟩

instance {α : Type} : IsTrans (α × ℝ) simGE :=
  ⟨fun _ _ _ h h' => le_trans h' h⟩

/-- The scan loop of `find_similar_journalists`: for each stored
journalist embedding whose similarity to the requester's vector meets the
threshold, look the journalist up by profile id and keep them when they
are accepting pitches. -/
noncomputable def similar_journalist_results (db : DB)
    (company_vec : List ℝ) (min_similarity : ℝ) :
    List (JournalistProfile × ℝ) :=
  (db.embeddings.filter (fun e =>
    decide (e.profile_type = ProfileType.journalist))).filterMap
    (fun j_emb =>
      let similarity := cosine_similarity company_vec j_emb.embedding
      if min_similarity ≤ similarity then
        match (db.journalists.filter (fun j =>
          decide (j.id = j_emb.profile_id))).head? with
        | some journalist =>
            if journalist.is_accepting_pitches then
              some (journalist, similarity)
            else none
        | none => none
      else none)

/-- The scan loop of `find_similar_companies`. -/
noncomputable def similar_company_results (db : DB)
    (journalist_vec : List ℝ) (min_similarity : ℝ) :
    List (CompanyProfile × ℝ) :=
  (db.embeddings.filter (fun e =>
    decide (e.profile_type = ProfileType.company))).filterMap
    (fun c_emb =>
      let similarity := cosine_similarity journalist_vec c_emb.embedding
      if min_similarity ≤ similarity then
        match (db.companies.filter (fun c =>
          decide (c.id = c_emb.profile_id))).head? with
        | some company =>
            if company.is_active then some (company, similarity)
            else none
        | none => none
      else none)

/-- `find_similar_journalists`: empty when the requesting company has no
stored embedding, otherwise the scan results sorted by similarity
descending and truncated to `limit`. -/
noncomputable def find_similar_journalists (db : DB) (company_id : String)
    (min_similarity : ℝ) (limit : ℕ) : List (JournalistProfile × ℝ) :=
  match get_embedding db ProfileType.company company_id with
  | none => []
  | some ce =>
      ((similar_journalist_results db ce.embedding min_similarity).insertionSort
        simGE).take limit

/-- `find_similar_companies`. -/
noncomputable def find_similar_companies (db : DB) (journalist_id : String)
    (min_similarity : ℝ) (limit : ℕ) : List (CompanyProfile × ℝ) :=
  match get_embedding db ProfileType.journalist journalist_id with
  | none => []
  | some je =>
      ((similar_company_results db je.embedding min_similarity).insertionSort
        simGE).take limit

/-! ## Similarity router (src/matching/router.py, Phase 4 endpoints) -/

/-- Python's `round` to the nearest integer, ties to even. -/
noncomputable def pyRound (x : ℝ) : ℤ :=
  let n := ⌊x⌋
  if x - n < 1 / 2 then n
  else if 1 / 2 < x - n then n + 1
  else if 2 ∣ n then n else n + 1

/-- Python's `round(x, 3)`. -/
noncomputable def roundTo3 (x : ℝ) : ℝ := (pyRound (x * 1000) : ℝ) / 1000

/-- A similarity match entry (src/matching/schemas.py:
`SimilarJournalistMatch`). -/
structure SimilarJournalistMatch where
  journalist_id : String
  full_name : String
  outlet_name : String
  outlet_type : String
  beat_description : String
  similarity_score : ℝ
  match_reason : String

/-- A similarity match entry (src/matching/schemas.py:
`SimilarCompanyMatch`). -/
structure SimilarCompanyMatch where
  company_id : String
  company_name : String
  industry : String
  company_size : String
  description : Option String
  similarity_score : ℝ
  match_reason : String

/-- `GET /matches/similar/journalists` for a company-type caller:
400 when the caller has no profile, otherwise the similarity results
wrapped with their generated reasons; returns `(matches, total)`. -/
noncomputable def get_similar_journalists_route (db : DB) (user_id : String)
    (min_similarity : ℝ) (limit : ℕ) :
    Except ApiError (List SimilarJournalistMatch × ℕ) :=
  match get_company_profile db user_id with
  | none => .error .missingProfile
  | some profile =>
      let results := find_similar_journalists db profile.id min_similarity
        limit
      let ms := results.map (fun r =>
        { journalist_id := r.1.id,
          full_name := r.1.full_name,
          outlet_name := r.1.outlet_name,
          outlet_type := r.1.outlet_type,
          beat_description := r.1.beat_description,
          similarity_score := roundTo3 r.2,
          match_reason := "Profile similarity: " ++
            toString (pyRound (r.2 * 100)) ++
            "% match based on semantic analysis of " ++ r.1.full_name ++
            "\x27s beat and " ++ profile.company_name ++
            "\x27s description." : SimilarJournalistMatch })
      .ok (ms, ms.length)

/-- `GET /matches/similar/companies` for a journalist-type caller. -/
noncomputable def get_similar_companies_route (db : DB) (user_id : String)
    (min_similarity : ℝ) (limit : ℕ) :
    Except ApiError (List SimilarCompanyMatch × ℕ) :=
  match get_journalist_profile db user_id with
  | none => .error .missingProfile
  | some profile =>
      let results := find_similar_companies db profile.id min_similarity
        limit
      let ms := results.map (fun r =>
        { company_id := r.1.id,
          company_name := r.1.company_name,
          industry := r.1.industry,
          company_size := r.1.company_size,
          description := r.1.description,
          similarity_score := roundTo3 r.2,
          match_reason := "Profile similarity: " ++
            toString (pyRound (r.2 * 100)) ++
            "% match based on semantic analysis of " ++ r.1.company_name ++
            "\x27s profile and " ++ profile.full_name ++
            "\x27s beat." : SimilarCompanyMatch })
      .ok (ms, ms.length)

/-! ## Journalist profile creation (src/journalists/service.py,
src/journalists/router.py) -/

/-- `src/topics/service.py: get_topics_by_ids`. -/
def get_topics_by_ids (db : DB) (topic_ids : List String) : List Topic :=
  if topic_ids.isEmpty then []
  else db.topics.filter (fun t => topic_ids.any (fun i => decide (i = t.id)))

/-- Input data for profile creation (src/journalists/schemas.py:
`JournalistProfileCreate`). -/
structure JournalistProfileCreate where
  full_name : String
  bio : Option String
  outlet_name : String
  outlet_type : String
  beat_description : String
  is_accepting_pitches : Bool
  topic_ids : List String

/-- `create_profile`: resolve the topic ids, insert the new profile row
(`new_id` stands for the generated uuid) and return it.  No embedding
write occurs here. -/
def create_profile (db : DB) (new_id user_id : String)
    (profile_data : JournalistProfileCreate) : DB × JournalistProfile :=
  let topics := get_topics_by_ids db profile_data.topic_ids
  let profile : JournalistProfile :=
    { id := new_id, user_id := user_id,
      full_name := profile_data.full_name,
      bio := profile_data.bio,
      outlet_name := profile_data.outlet_name,
      outlet_type := profile_data.outlet_type,
      beat_description := profile_data.beat_description,
      is_accepting_pitches := profile_data.is_accepting_pitches,
      topics := topics }
  ({ db with journalists := db.journalists ++ [profile] }, profile)

/-- `POST /journalists/me` (`create_my_profile`): 409 when a profile
already exists, otherwise delegate to `create_profile`.  No embedding
write occurs on this path either. -/
def create_my_profile (db : DB) (new_id user_id : String)
    (profile_data : JournalistProfileCreate) :
    Except Unit (DB × JournalistProfile) :=
  match get_journalist_profile db user_id with
  | some _ => .error ()
  | none => .ok (create_profile db new_id user_id profile_data)

/-! ## Concrete stores used by witnesses and counterexamples -/

/-- A non-accepting journalist sharing a topic with the company below. -/
def jC1 : JournalistProfile :=
  ⟨"j1", "u1", "Jo", none, "Out", "online", "beat", false,
    [⟨"t1", "ai", "AI", "tech"⟩]⟩

/-- An active company profile owned by user "u2". -/
def cC1 : CompanyProfile :=
  ⟨"c1", "u2", "Acme", none, "Tech", "startup", true,
    [⟨"t1", "ai", "AI", "tech"⟩]⟩

/-- A one-journalist store exercising the gating half of C1. -/
def dbC1 : DB :=
  { topics := [⟨"t1", "ai", "AI", "tech"⟩],
    journalists := [jC1],
    companies := [cC1],
    embeddings := [] }

/-- A store with one topic and no profiles or embeddings. -/
def dbC5 : DB :=
  { topics := [⟨"t1", "ai", "AI", "tech"⟩],
    journalists := [], companies := [], embeddings := [] }

/-- Concrete profile-creation input. -/
def dC5 : JournalistProfileCreate :=
  { full_name := "Jo", bio := none, outlet_name := "Out",
    outlet_type := "online", beat_description := "beat",
    is_accepting_pitches := true, topic_ids := ["t1"] }

/-- An accepting journalist sharing a topic with `cC1`. -/
def jC3 : JournalistProfile :=
  ⟨"j1", "u1", "Jo", none, "Out", "online", "beat", true,
    [⟨"t1", "ai", "AI", "tech"⟩]⟩

/-- A store with one matching journalist/company pair. -/
def dbC3 : DB :=
  { topics := [⟨"t1", "ai", "AI", "tech"⟩],
    journalists := [jC3],
    companies := [cC1],
    embeddings := [] }

/-- A stored company embedding for profile "c1". -/
def embC2 : ProfileEmbedding :=
  ⟨ProfileType.company, "c1", [1], "t"⟩

/-- A store holding exactly one (company) embedding. -/
def dbC2 : DB :=
  { topics := [], journalists := [], companies := [],
    embeddings := [embC2] }

/-- A company profile with zero topics, owned by user "u2". -/
def cC9 : CompanyProfile :=
  ⟨"c9", "u2", "Acme", none, "Tech", "startup", true, []⟩

/-- A store whose only company has an empty topic set. -/
def dbC9 : DB :=
  { topics := [], journalists := [], companies := [cC9],
    embeddings := [] }

/-! ## Helper lemmas -/

/-- Company eligibility unfolded to a proposition. -/
lemma company_is_eligible_iff (c : CompanyProfile) :
    company_is_eligible c = true ↔ (c.is_active = true ∧ c.topics ≠ []) := by
  simp [company_is_eligible, List.length_pos]

/-- Journalist eligibility unfolded to a proposition. -/
lemma journalist_is_eligible_iff (j : JournalistProfile) :
    journalist_is_eligible j = true ↔
      (j.is_accepting_pitches = true ∧ j.topics ≠ []) := by
  simp [journalist_is_eligible, List.length_pos]

/-- The overlap list is non-empty exactly when the topic-id sets meet. -/
lemma get_topic_overlap_ne_nil_iff (A B : List Topic) :
    get_topic_overlap A B ≠ [] ↔ ∃ t ∈ A, ∃ u ∈ B, t.id = u.id := by
  rw [get_topic_overlap, Ne, List.filter_eq_nil_iff]
  push_neg
  constructor
  · rintro ⟨u, hu, hp⟩
    simp only [List.any_eq_true, decide_eq_true_eq] at hp
    obtain ⟨t, ht, hid⟩ := hp
    exact ⟨t, ht, u, hu, hid⟩
  · rintro ⟨t, ht, u, hu, hid⟩
    refine ⟨u, hu, ?_⟩
    simp only [List.any_eq_true, decide_eq_true_eq]
    exact ⟨t, ht, hid⟩

/-- The matched flag of `is_match`, characterised. -/
lemma is_match_fst_iff (c : CompanyProfile) (j : JournalistProfile) :
    (is_match c j).1 = true ↔
      (company_is_eligible c = true ∧ journalist_is_eligible j = true ∧
        get_topic_overlap c.topics j.topics ≠ []) := by
  by_cases h1 : company_is_eligible c
  · by_cases h2 : journalist_is_eligible j
    · cases he : (get_topic_overlap c.topics j.topics).isEmpty
      · simp [is_match, h1, h2, he]
        simpa using he
      · simp only [List.isEmpty_iff] at he
        simp [is_match, h1, h2, he]
    · simp [is_match, h1, h2]
  · simp [is_match, h1]

/-- Every entry of the rule-based match list arises from an
accepting-pitches journalist row for which `is_match` holds. -/
lemma mem_journalist_match_list {db : DB} {company : CompanyProfile}
    {m : JournalistMatch} (hm : m ∈ journalist_match_list db company) :
    ∃ j ∈ db.journalists, j.is_accepting_pitches = true ∧
      (is_match company j).1 = true ∧
      m = { journalist_id := j.id, full_name := j.full_name,
            outlet_name := j.outlet_name, outlet_type := j.outlet_type,
            beat_description := j.beat_description,
            matched_topics := (is_match company j).2.map toBrief,
            match_reason :=
              generate_match_reason company j (is_match company j).2 } := by
  rw [journalist_match_list, List.mem_filterMap] at hm
  obtain ⟨j, hj, hf⟩ := hm
  rw [List.mem_filter] at hj
  refine ⟨j, hj.1, hj.2, ?_⟩
  by_cases hr : (is_match company j).1
  · simp only [hr, if_pos, Option.some.injEq] at hf
    exact ⟨hr, hf.symm⟩
  · simp [hr] at hf

/-- Paginated results are among the full match list. -/
lemma mem_find_journalists {db : DB} {uid : String} {page psize : ℕ}
    {m : JournalistMatch}
    (hm : m ∈ (find_journalists_for_company db uid page psize).1) :
    ∃ company, get_company_profile db uid = some company ∧
      m ∈ journalist_match_list db company := by
  rcases hc : get_company_profile db uid with _ | company
  · rw [find_journalists_for_company, hc] at hm
    simp at hm
  · rw [find_journalists_for_company, hc] at hm
    exact ⟨company, rfl,
      List.drop_subset _ _ (List.take_subset _ _ hm)⟩

/-! ## Claim C1 -/

/-- Claim C1: `is_match` returns `matched = true` exactly when the
company is eligible (active with at least one topic), the journalist is
eligible (accepting pitches with at least one topic) and their topic-id
sets intersect; consequently a journalist whose `is_accepting_pitches`
flag is false never appears in any company's rule-based match results. -/
theorem is_match_iff_and_gating :
    (∀ (c : CompanyProfile) (j : JournalistProfile),
      (is_match c j).1 = true ↔
        (c.is_active = true ∧ c.topics ≠ [] ∧
          j.is_accepting_pitches = true ∧ j.topics ≠ [] ∧
          ∃ t ∈ c.topics, ∃ u ∈ j.topics, t.id = u.id)) ∧
    (∀ (db : DB) (uid : String) (page psize : ℕ) (j : JournalistProfile),
      (db.journalists.map JournalistProfile.id).Nodup →
      j ∈ db.journalists → j.is_accepting_pitches = false →
      ∀ m ∈ (find_journalists_for_company db uid page psize).1,
        m.journalist_id ≠ j.id) := by
  constructor
  · intro c j
    rw [is_match_fst_iff, company_is_eligible_iff, journalist_is_eligible_iff,
      get_topic_overlap_ne_nil_iff]
    tauto
  · intro db uid page psize j hnd hj hacc m hm hid
    obtain ⟨company, _, hml⟩ := mem_find_journalists hm
    obtain ⟨j', hj', hacc', _, hm_eq⟩ := mem_journalist_match_list hml
    have hid' : j'.id = j.id := by rw [← hid, hm_eq]
    have : j' = j := List.inj_on_of_nodup_map hnd hj' hj hid'
    rw [this, hacc] at hacc'
    exact Bool.false_ne_true hacc'

/-- Witness for C1: the gating statement applied to a concrete store
holding one non-accepting journalist sharing a topic with the company. -/
theorem is_match_iff_and_gating_witness :
    ((dbC1.journalists.map JournalistProfile.id).Nodup ∧
      jC1 ∈ dbC1.journalists ∧ jC1.is_accepting_pitches = false) ∧
    (∀ m ∈ (find_journalists_for_company dbC1 "u2" 1 20).1,
      m.journalist_id ≠ jC1.id) :=
  ⟨⟨by decide, by decide, by decide⟩,
    is_match_iff_and_gating.2 dbC1 "u2" 1 20 jC1
      (by decide) (by decide) (by decide)⟩

/-! ## Claim C10 -/

/-- Claim C10 counterexample: `get_topic_overlap` returns topics drawn
from its second argument in that argument's order, so as lists the two
orientations differ even for the same two-element topic set. -/
theorem get_topic_overlap_not_symm :
    get_topic_overlap
        [⟨"1", "ai", "AI", "tech"⟩, ⟨"2", "ml", "ML", "tech"⟩]
        [⟨"2", "ml", "ML", "tech"⟩, ⟨"1", "ai", "AI", "tech"⟩] ≠
      get_topic_overlap
        [⟨"2", "ml", "ML", "tech"⟩, ⟨"1", "ai", "AI", "tech"⟩]
        [⟨"1", "ai", "AI", "tech"⟩, ⟨"2", "ml", "ML", "tech"⟩] := by
  decide

/-- Claim C10 (amended): the topic-id SETS of the two orientations of
`get_topic_overlap` always coincide — the intersection is commutative as
a set of topic ids, though not as a list of topic rows. -/
theorem get_topic_overlap_id_set_symm (A B : List Topic) :
    ((get_topic_overlap A B).map Topic.id).toFinset =
      ((get_topic_overlap B A).map Topic.id).toFinset := by
  ext i
  simp only [List.mem_toFinset, List.mem_map, get_topic_overlap,
    List.mem_filter, List.any_eq_true, decide_eq_true_eq]
  constructor
  · rintro ⟨t, ⟨htB, s, hsA, hid⟩, rfl⟩
    exact ⟨s, ⟨hsA, t, htB, hid.symm⟩, hid⟩
  · rintro ⟨t, ⟨htA, s, hsB, hid⟩, rfl⟩
    exact ⟨s, ⟨hsB, t, htA, hid.symm⟩, hid⟩

/-! ## Claim C5 -/

/-- Claim C5 (code bug evidence): profile creation performs no embedding
write — the embeddings table is unchanged by `create_profile` on every
store and on both router outcomes, and concretely, after creating a
journalist profile in a fresh store no `(journalist, id)` embedding
exists, contradicting the repository's own tests
(`test_journalist_embedding_created_on_profile_create`). -/
theorem create_profile_writes_no_embedding :
    (∀ (db : DB) (nid uid : String) (d : JournalistProfileCreate),
      ((create_profile db nid uid d).1).embeddings = db.embeddings) ∧
    (∀ (db : DB) (nid uid : String) (d : JournalistProfileCreate),
      create_my_profile db nid uid d = .error () ∨
      create_my_profile db nid uid d = .ok (create_profile db nid uid d)) ∧
    get_embedding ((create_profile dbC5 "j1" "u1" dC5).1)
      ProfileType.journalist "j1" = none := by
  refine ⟨fun db nid uid d => rfl, fun db nid uid d => ?_, rfl⟩
  rw [create_my_profile]
  cases get_journalist_profile db uid
  · exact Or.inr rfl
  · exact Or.inl rfl

/-! ## Claim C8 -/

/-- Concatenating the slices of width `P` starting at `0, P, 2P, ...`
rebuilds a prefix of the list. -/
lemma bind_slices_eq_take {α : Type} (l : List α) (P : ℕ) :
    ∀ K, (List.range K).flatMap (fun k => (l.drop (k * P)).take P) =
      l.take (K * P) := by
  intro K
  induction K with
  | zero => simp
  | succ n ih =>
      rw [List.range_succ, List.flatMap_append, ih, Nat.succ_mul,
        List.take_add]
      simp

/-- Claim C8: with the requester's profile present, the concatenation of
all pages of `find_journalists_for_company` (page size `P ≥ 1`, pages
`1..K` with `K*P ≥ N`) is exactly the full match list of size `N`, and
the router's `has_more` flag is set exactly when `page * page_size`
is below the total. -/
theorem pagination_invariant (db : DB) (uid : String) (P : ℕ)
    (c : CompanyProfile) (_hP : 1 ≤ P)
    (hc : get_company_profile db uid = some c) :
    (∀ K, (journalist_match_list db c).length ≤ K * P →
      (List.range K).flatMap
        (fun k => (find_journalists_for_company db uid (k + 1) P).1) =
        journalist_match_list db c) ∧
    (∀ (page : ℕ) (r : MatchResults),
      get_journalist_matches db uid page P = .ok r →
      r.total = (journalist_match_list db c).length ∧
      (r.has_more = true ↔
        page * P < (journalist_match_list db c).length)) := by
  constructor
  · intro K hK
    have hpage : ∀ k : ℕ,
        (find_journalists_for_company db uid (k + 1) P).1 =
          ((journalist_match_list db c).drop (k * P)).take P := by
      intro k
      rw [find_journalists_for_company, hc]
      simp
    simp only [hpage]
    rw [bind_slices_eq_take, List.take_of_length_le hK]
  · intro page r hr
    have hfind : find_journalists_for_company db uid page P =
        (((journalist_match_list db c).drop ((page - 1) * P)).take P,
          (journalist_match_list db c).length) := by
      rw [find_journalists_for_company, hc]
    rw [get_journalist_matches, hfind] at hr
    by_cases hcond : (journalist_match_list db c).length = 0 ∧ page = 1
    · rw [if_pos hcond, hc] at hr
      by_cases ht : c.topics.isEmpty
      · simp only [ht, if_true] at hr
        exact absurd hr (by simp)
      · simp only [ht, if_false, Bool.false_eq_true, Except.ok.injEq] at hr
        subst hr
        exact ⟨rfl, by simp⟩
    · rw [if_neg hcond] at hr
      simp only [Except.ok.injEq] at hr
      subst hr
      exact ⟨rfl, by simp⟩

/-- Witness for C8: on the concrete store (a company whose only
candidate journalist is not accepting pitches, hence zero matches) both
halves of the pagination theorem apply at `P = 1`. -/
theorem pagination_invariant_witness :
    (1 ≤ 1 ∧ get_company_profile dbC1 "u2" = some cC1 ∧
      (journalist_match_list dbC1 cC1).length ≤ 1 * 1 ∧
      get_journalist_matches dbC1 "u2" 2 1 =
        .ok ⟨[], 0, 2, 1, false⟩) ∧
    ((List.range 1).flatMap
        (fun k => (find_journalists_for_company dbC1 "u2" (k + 1) 1).1) =
      journalist_match_list dbC1 cC1) ∧
    ((⟨[], 0, 2, 1, false⟩ : MatchResults).total =
        (journalist_match_list dbC1 cC1).length ∧
      ((⟨[], 0, 2, 1, false⟩ : MatchResults).has_more = true ↔
        2 * 1 < (journalist_match_list dbC1 cC1).length)) :=
  ⟨⟨by decide, by decide, by decide, rfl⟩,
    (pagination_invariant dbC1 "u2" 1 cC1 (by decide) (by decide)).1 1
      (by decide),
    (pagination_invariant dbC1 "u2" 1 cC1 (by decide) (by decide)).2 2
      ⟨[], 0, 2, 1, false⟩ rfl⟩

/-! ## Claim C9 -/

/-- Claim C9 counterexample: a requester with no profile asking for
page 2 receives an ordinary empty success response, not the guidance
error — the router only raises when `page == 1`. -/
theorem missing_profile_page2_not_error :
    get_company_profile dbC1 "u9" = none ∧
    get_journalist_matches dbC1 "u9" 2 20 =
      .ok ⟨[], 0, 2, 20, false⟩ := by
  exact ⟨by decide, rfl⟩

/-- With an empty topic set the company is ineligible, so the match
list is empty. -/
lemma journalist_match_list_eq_nil_of_no_topics {db : DB}
    {c : CompanyProfile} (ht : c.topics = []) :
    journalist_match_list db c = [] := by
  rw [journalist_match_list, List.filterMap_eq_nil_iff]
  intro j _
  simp [is_match, company_is_eligible, ht]

/-- Claim C9 (amended): a missing profile or an empty topic set is
surfaced as its own distinct guidance error, but only on page 1; on
pages ≥ 2 the same precondition produces an ordinary empty success
response. -/
theorem precondition_errors_page1_only (db : DB) (uid : String)
    (P page : ℕ) :
    (get_company_profile db uid = none → page = 1 →
      get_journalist_matches db uid page P = .error .missingProfile) ∧
    (∀ c, get_company_profile db uid = some c → c.topics = [] → page = 1 →
      get_journalist_matches db uid page P = .error .emptyTopicSet) ∧
    (get_company_profile db uid = none → 2 ≤ page →
      get_journalist_matches db uid page P = .ok ⟨[], 0, page, P, false⟩) ∧
    (∀ c, get_company_profile db uid = some c → c.topics = [] → 2 ≤ page →
      get_journalist_matches db uid page P = .ok ⟨[], 0, page, P, false⟩) := by
  refine ⟨?_, ?_, ?_, ?_⟩
  · intro hnone hpage
    subst hpage
    simp [get_journalist_matches, find_journalists_for_company, hnone]
  · intro c hc ht hpage
    subst hpage
    have hnil : journalist_match_list db c = [] :=
      journalist_match_list_eq_nil_of_no_topics ht
    simp [get_journalist_matches, find_journalists_for_company, hc, hnil, ht]
  · intro hnone hpage
    have hpage1 : page ≠ 1 := by omega
    simp [get_journalist_matches, find_journalists_for_company, hnone,
      hpage1]
  · intro c hc ht hpage
    have hpage1 : page ≠ 1 := by omega
    have hnil : journalist_match_list db c = [] :=
      journalist_match_list_eq_nil_of_no_topics ht
    simp [get_journalist_matches, find_journalists_for_company, hc, hnil,
      hpage1]

/-- Witness for C9 (amended): all four branches applied on concrete
stores — no profile on page 1, an empty-topic profile on page 1, no
profile on page 2, and an empty-topic profile on page 2. -/
theorem precondition_errors_page1_only_witness :
    (get_company_profile dbC1 "u9" = none ∧
      get_company_profile dbC9 "u2" = some cC9 ∧ cC9.topics = []) ∧
    (get_journalist_matches dbC1 "u9" 1 20 = .error .missingProfile ∧
      get_journalist_matches dbC9 "u2" 1 20 = .error .emptyTopicSet ∧
      get_journalist_matches dbC1 "u9" 2 20 = .ok ⟨[], 0, 2, 20, false⟩ ∧
      get_journalist_matches dbC9 "u2" 2 20 = .ok ⟨[], 0, 2, 20, false⟩) :=
  ⟨⟨by decide, by decide, by decide⟩,
    (precondition_errors_page1_only dbC1 "u9" 20 1).1 (by decide) rfl,
    (precondition_errors_page1_only dbC9 "u2" 20 1).2.1 cC9 (by decide)
      (by decide) rfl,
    (precondition_errors_page1_only dbC1 "u9" 20 2).2.2.1 (by decide)
      (by decide),
    (precondition_errors_page1_only dbC9 "u2" 20 2).2.2.2 cC9 (by decide)
      (by decide) (by decide)⟩

/-! ## Claim C4 -/

/-- Claim C4 counterexample: a company with a profile but no stored
embedding gets a successful zero-result response from the similarity
endpoint — the missing embedding is not surfaced as a precondition
error. -/
theorem embedding_missing_not_error :
    get_company_profile dbC1 "u2" = some cC1 ∧
    get_embedding dbC1 ProfileType.company cC1.id = none ∧
    get_similar_journalists_route dbC1 "u2" (3 / 10) 20 = .ok ([], 0) :=
  ⟨by decide, rfl, rfl⟩

/-- Claim C4 (amended): when the requester has a profile but no stored
embedding, both similarity endpoints return a successful empty result
`([], 0)`; only a missing profile is surfaced as a precondition error. -/
theorem embedding_missing_yields_empty_success :
    (∀ (db : DB) (uid : String) (t : ℝ) (l : ℕ) (p : CompanyProfile),
      get_company_profile db uid = some p →
      get_embedding db ProfileType.company p.id = none →
      get_similar_journalists_route db uid t l = .ok ([], 0)) ∧
    (∀ (db : DB) (uid : String) (t : ℝ) (l : ℕ) (p : JournalistProfile),
      get_journalist_profile db uid = some p →
      get_embedding db ProfileType.journalist p.id = none →
      get_similar_companies_route db uid t l = .ok ([], 0)) ∧
    (∀ (db : DB) (uid : String) (t : ℝ) (l : ℕ),
      get_company_profile db uid = none →
      get_similar_journalists_route db uid t l = .error .missingProfile) ∧
    (∀ (db : DB) (uid : String) (t : ℝ) (l : ℕ),
      get_journalist_profile db uid = none →
      get_similar_companies_route db uid t l = .error .missingProfile) := by
  refine ⟨?_, ?_, ?_, ?_⟩
  · intro db uid t l p hp he
    simp [get_similar_journalists_route, hp, find_similar_journalists, he]
  · intro db uid t l p hp he
    simp [get_similar_companies_route, hp, find_similar_companies, he]
  · intro db uid t l hp
    simp [get_similar_journalists_route, hp]
  · intro db uid t l hp
    simp [get_similar_companies_route, hp]

/-- Witness for C4 (amended): applied to the concrete store where the
company "c1" has a profile but no embedding, and to a user with no
profile at all. -/
theorem embedding_missing_yields_empty_success_witness :
    (get_company_profile dbC1 "u2" = some cC1 ∧
      get_embedding dbC1 ProfileType.company cC1.id = none ∧
      get_company_profile dbC1 "u9" = none) ∧
    (get_similar_journalists_route dbC1 "u2" (3 / 10) 20 = .ok ([], 0) ∧
      get_similar_journalists_route dbC1 "u9" (3 / 10) 20 =
        .error .missingProfile) :=
  ⟨⟨by decide, rfl, by decide⟩,
    embedding_missing_yields_empty_success.1 dbC1 "u2" (3 / 10) 20 cC1
      (by decide) rfl,
    embedding_missing_yields_empty_success.2.2.1 dbC1 "u9" (3 / 10) 20
      (by decide)⟩

/-! ## Claim C7 -/

/-- Claim C7: `generate_embedding` is deterministic in its text input,
returns the all-zero vector of the fixed dimension for empty or
whitespace-only text, and always returns a vector of the fixed dimension
384 (given that the external model's `encode` honours the dimension on
the given text, as the spec requires of the interface). -/
theorem generate_embedding_props (encode : String → List ℝ)
    (sha : String → ℕ) (useFallback : Bool) (text : String)
    (hdim : (encode text).length = EMBEDDING_DIMENSION) :
    EMBEDDING_DIMENSION = 384 ∧
    (generate_embedding encode sha useFallback text).length =
      EMBEDDING_DIMENSION ∧
    (text = "" ∨ text.trim = "" →
      generate_embedding encode sha useFallback text =
        List.replicate EMBEDDING_DIMENSION 0) ∧
    (∀ t₂, t₂ = text →
      generate_embedding encode sha useFallback t₂ =
        generate_embedding encode sha useFallback text) := by
  refine ⟨rfl, ?_, ?_, ?_⟩
  · rw [generate_embedding]
    split
    · simp
    · split
      · simp [hash_based_embedding]
      · exact hdim
  · intro h
    rw [generate_embedding, if_pos h]
  · intro t₂ h
    rw [h]

/-- Witness for C7: a constant zero `encode`, the zero hash, model mode,
on the text "hi". -/
theorem generate_embedding_props_witness :
    ((fun _ : String => List.replicate EMBEDDING_DIMENSION (0 : ℝ)) "hi").length =
      EMBEDDING_DIMENSION ∧
    (generate_embedding
        (fun _ : String => List.replicate EMBEDDING_DIMENSION (0 : ℝ))
        (fun _ : String => 0) false "hi").length = EMBEDDING_DIMENSION :=
  ⟨by simp, (generate_embedding_props
      (fun _ : String => List.replicate EMBEDDING_DIMENSION (0 : ℝ))
      (fun _ : String => 0) false "hi" (by simp)).2.1⟩

/-! ## Claim C3 -/

/-- A concatenation whose right part has positive length is non-empty. -/
lemma string_append_ne_empty (s t : String) (h : t.length ≠ 0) :
    s ++ t ≠ "" := by
  intro he
  have hl := congrArg String.length he
  rw [String.length_append] at hl
  simp only [String.length_empty] at hl
  omega

/-- Every entry of the companies-direction match list arises from an
active company row for which `is_match` holds. -/
lemma mem_company_match_list {db : DB} {journalist : JournalistProfile}
    {m : CompanyMatch} (hm : m ∈ company_match_list db journalist) :
    ∃ c ∈ db.companies, c.is_active = true ∧
      (is_match c journalist).1 = true ∧
      m = { company_id := c.id, company_name := c.company_name,
            industry := c.industry, company_size := c.company_size,
            description := c.description,
            matched_topics := (is_match c journalist).2.map toBrief,
            match_reason :=
              generate_match_reason c journalist (is_match c journalist).2 } := by
  rw [company_match_list, List.mem_filterMap] at hm
  obtain ⟨c, hc, hf⟩ := hm
  rw [List.mem_filter] at hc
  refine ⟨c, hc.1, hc.2, ?_⟩
  by_cases hr : (is_match c journalist).1
  · simp only [hr, if_pos, Option.some.injEq] at hf
    exact ⟨hr, hf.symm⟩
  · simp [hr] at hf

/-- Paginated companies-direction results are among the full match list. -/
lemma mem_find_companies {db : DB} {uid : String} {page psize : ℕ}
    {m : CompanyMatch}
    (hm : m ∈ (find_companies_for_journalist db uid page psize).1) :
    ∃ journalist, get_journalist_profile db uid = some journalist ∧
      m ∈ company_match_list db journalist := by
  rcases hc : get_journalist_profile db uid with _ | journalist
  · rw [find_companies_for_journalist, hc] at hm
    simp at hm
  · rw [find_companies_for_journalist, hc] at hm
    exact ⟨journalist, rfl,
      List.drop_subset _ _ (List.take_subset _ _ hm)⟩

/-- Claim C3: every returned match carries a non-empty explanation
referencing both parties' names; rule-based explanations embed the
overlapping topic display names joined with English list grammar, and
similarity explanations embed the rounded percentage score. -/
theorem explanations_complete :
    ((∀ n : String, joinTopicNames [n] = n) ∧
      (∀ n₁ n₂ : String, joinTopicNames [n₁, n₂] = n₁ ++ " and " ++ n₂) ∧
      (∀ (n₁ n₂ n₃ : String) (ns : List String),
        joinTopicNames (n₁ :: n₂ :: n₃ :: ns) =
          String.intercalate ", " (List.dropLast (n₁ :: n₂ :: n₃ :: ns)) ++
            ", and " ++ (n₁ :: n₂ :: n₃ :: ns).getLastD "")) ∧
    (∀ (db : DB) (uid : String) (page psize : ℕ) (c : CompanyProfile),
      get_company_profile db uid = some c →
      ∀ m ∈ (find_journalists_for_company db uid page psize).1,
        m.match_reason ≠ "" ∧
        m.match_reason = m.full_name ++ " at " ++ m.outlet_name ++
          " covers " ++
          joinTopicNames (m.matched_topics.map TopicBrief.display_name) ++
          ", which aligns with " ++ c.company_name ++ "\x27s expertise.") ∧
    (∀ (db : DB) (uid : String) (page psize : ℕ) (j : JournalistProfile),
      get_journalist_profile db uid = some j →
      ∀ m ∈ (find_companies_for_journalist db uid page psize).1,
        m.match_reason ≠ "" ∧
        m.match_reason = j.full_name ++ " at " ++ j.outlet_name ++
          " covers " ++
          joinTopicNames (m.matched_topics.map TopicBrief.display_name) ++
          ", which aligns with " ++ m.company_name ++ "\x27s expertise.") ∧
    (∀ (db : DB) (uid : String) (t : ℝ) (l : ℕ)
        (res : List SimilarJournalistMatch × ℕ),
      get_similar_journalists_route db uid t l = .ok res →
      ∀ m ∈ res.1, m.match_reason ≠ "" ∧
        ∃ (p : CompanyProfile) (score : ℝ),
          get_company_profile db uid = some p ∧
          m.similarity_score = roundTo3 score ∧
          m.match_reason = "Profile similarity: " ++
            toString (pyRound (score * 100)) ++
            "% match based on semantic analysis of " ++ m.full_name ++
            "\x27s beat and " ++ p.company_name ++ "\x27s description.") ∧
    (∀ (db : DB) (uid : String) (t : ℝ) (l : ℕ)
        (res : List SimilarCompanyMatch × ℕ),
      get_similar_companies_route db uid t l = .ok res →
      ∀ m ∈ res.1, m.match_reason ≠ "" ∧
        ∃ (p : JournalistProfile) (score : ℝ),
          get_journalist_profile db uid = some p ∧
          m.similarity_score = roundTo3 score ∧
          m.match_reason = "Profile similarity: " ++
            toString (pyRound (score * 100)) ++
            "% match based on semantic analysis of " ++ m.company_name ++
            "\x27s profile and " ++ p.full_name ++ "\x27s beat.") := by
  refine ⟨⟨fun n => rfl, fun n₁ n₂ => rfl, fun n₁ n₂ n₃ ns => rfl⟩,
    ?_, ?_, ?_, ?_⟩
  · intro db uid page psize c hc m hm
    obtain ⟨c', hc', hml⟩ := mem_find_journalists hm
    rw [hc] at hc'
    obtain rfl : c = c' := by injection hc'
    obtain ⟨j, _, _, _, rfl⟩ := mem_journalist_match_list hml
    constructor
    · exact string_append_ne_empty _ _ (by decide)
    · show generate_match_reason c j (is_match c j).2 = _
      rw [generate_match_reason]
      simp only [List.map_map]
      rfl
  · intro db uid page psize j hj m hm
    obtain ⟨j', hj', hml⟩ := mem_find_companies hm
    rw [hj] at hj'
    obtain rfl : j = j' := by injection hj'
    obtain ⟨c, _, _, _, rfl⟩ := mem_company_match_list hml
    constructor
    · exact string_append_ne_empty _ _ (by decide)
    · show generate_match_reason c j (is_match c j).2 = _
      rw [generate_match_reason]
      simp only [List.map_map]
      rfl
  · intro db uid t l res hres m hm
    rcases hp : get_company_profile db uid with _ | p
    · rw [get_similar_journalists_route, hp] at hres
      exact absurd hres (by simp)
    · rw [get_similar_journalists_route, hp] at hres
      simp only [Except.ok.injEq] at hres
      subst hres
      simp only [List.mem_map] at hm
      obtain ⟨r, _, rfl⟩ := hm
      refine ⟨string_append_ne_empty _ _ (by decide), p, r.2, rfl, rfl, rfl⟩
  · intro db uid t l res hres m hm
    rcases hp : get_journalist_profile db uid with _ | p
    · rw [get_similar_companies_route, hp] at hres
      exact absurd hres (by simp)
    · rw [get_similar_companies_route, hp] at hres
      simp only [Except.ok.injEq] at hres
      subst hres
      simp only [List.mem_map] at hm
      obtain ⟨r, _, rfl⟩ := hm
      refine ⟨string_append_ne_empty _ _ (by decide), p, r.2, rfl, rfl, rfl⟩

/-- Witness for C3: the rule-based branch applied to a concrete store
with one matching pair; the error-free hypotheses are discharged on the
page-2 empty-success response of the similarity endpoint. -/
theorem explanations_complete_witness :
    (get_company_profile dbC3 "u2" = some cC1 ∧
      get_similar_journalists_route dbC1 "u2" (3 / 10) 20 = .ok ([], 0)) ∧
    (∀ m ∈ (find_journalists_for_company dbC3 "u2" 1 20).1,
      m.match_reason ≠ "" ∧
      m.match_reason = m.full_name ++ " at " ++ m.outlet_name ++
        " covers " ++
        joinTopicNames (m.matched_topics.map TopicBrief.display_name) ++
        ", which aligns with " ++ cC1.company_name ++ "\x27s expertise.") ∧
    (∀ m ∈ (([], 0) : List SimilarJournalistMatch × ℕ).1,
      m.match_reason ≠ "" ∧
      ∃ (p : CompanyProfile) (score : ℝ),
        get_company_profile dbC1 "u2" = some p ∧
        m.similarity_score = roundTo3 score ∧
        m.match_reason = "Profile similarity: " ++
          toString (pyRound (score * 100)) ++
          "% match based on semantic analysis of " ++ m.full_name ++
          "\x27s beat and " ++ p.company_name ++ "\x27s description.") :=
  ⟨⟨by decide, rfl⟩,
    explanations_complete.2.1 dbC3 "u2" 1 20 cC1 (by decide),
    explanations_complete.2.2.2.1 dbC1 "u2" (3 / 10) 20 ([], 0) rfl⟩

/-! ## Claim C6 -/

/-- A dot product of a vector with itself is a sum of squares. -/
lemma dotList_self_nonneg : ∀ a : List ℝ, 0 ≤ dotList a a := by
  intro a
  induction a with
  | nil => simp [dotList]
  | cons x xs ih =>
      simp only [dotList]
      nlinarith [sq_nonneg x]

/-- Cauchy–Schwarz for the list dot product, squared form. -/
lemma dotList_sq_le : ∀ a b : List ℝ,
    (dotList a b) ^ 2 ≤ dotList a a * dotList b b := by
  intro a
  induction a with
  | nil => intro b; simp [dotList]
  | cons x xs ih =>
      intro b
      cases b with
      | nil => simp [dotList, mul_nonneg (dotList_self_nonneg (x :: xs))]
      | cons y ys =>
          simp only [dotList]
          have h1 := ih ys
          have h2 := dotList_self_nonneg xs
          have h3 := dotList_self_nonneg ys
          set A := dotList xs xs with hA
          set B := dotList ys ys with hB
          set d := dotList xs ys with hd
          have hu : (0 : ℝ) ≤ x ^ 2 * B + y ^ 2 * A := by positivity
          have key : (2 * x * y * d) ^ 2 ≤ (x ^ 2 * B + y ^ 2 * A) ^ 2 := by
            nlinarith [sq_nonneg (x ^ 2 * B - y ^ 2 * A),
              mul_nonneg (mul_nonneg (sq_nonneg x) (sq_nonneg y))
                (sub_nonneg.2 h1)]
          have key2 : 2 * x * y * d ≤ x ^ 2 * B + y ^ 2 * A := by
            nlinarith [key, hu]
          nlinarith [key2, h1]

/-- Cauchy–Schwarz in norm form. -/
lemma abs_dotList_le (a b : List ℝ) :
    |dotList a b| ≤ Real.sqrt (dotList a a) * Real.sqrt (dotList b b) := by
  rw [← Real.sqrt_sq_eq_abs, ← Real.sqrt_mul (dotList_self_nonneg a)]
  exact Real.sqrt_le_sqrt (dotList_sq_le a b)

/-- `cosine_similarity` off the zero-norm guard. -/
lemma cosine_eq {a b : List ℝ} (ha : Real.sqrt (dotList a a) ≠ 0)
    (hb : Real.sqrt (dotList b b) ≠ 0) :
    cosine_similarity a b =
      dotList a b / (Real.sqrt (dotList a a) * Real.sqrt (dotList b b)) := by
  simp only [cosine_similarity]
  rw [if_neg (not_or.2 ⟨ha, hb⟩)]

/-- Claim C6: `cosine_similarity` is the dot product over the product of
Euclidean norms, is exactly `0.0` under the zero-norm guard, lies in
`[-1, 1]` for non-zero vectors of equal dimension, equals `1` (hence is
within `1e-4` of `1.0`) on identical non-zero vectors, and is within
`1e-4` of `0.0` on orthogonal vectors. -/
theorem cosine_similarity_props :
    (∀ a b : List ℝ,
      Real.sqrt (dotList a a) = 0 ∨ Real.sqrt (dotList b b) = 0 →
      cosine_similarity a b = 0) ∧
    (∀ a b : List ℝ, Real.sqrt (dotList a a) ≠ 0 →
      Real.sqrt (dotList b b) ≠ 0 →
      cosine_similarity a b =
        dotList a b / (Real.sqrt (dotList a a) * Real.sqrt (dotList b b))) ∧
    (∀ a b : List ℝ, a.length = b.length →
      Real.sqrt (dotList a a) ≠ 0 → Real.sqrt (dotList b b) ≠ 0 →
      -1 ≤ cosine_similarity a b ∧ cosine_similarity a b ≤ 1) ∧
    (∀ a : List ℝ, Real.sqrt (dotList a a) ≠ 0 →
      |cosine_similarity a a - 1| ≤ 1 / 10000) ∧
    (∀ a b : List ℝ, dotList a b = 0 →
      |cosine_similarity a b| ≤ 1 / 10000) := by
  refine ⟨?_, ?_, ?_, ?_, ?_⟩
  · intro a b h
    simp only [cosine_similarity]
    rw [if_pos h]
  · intro a b ha hb
    exact cosine_eq ha hb
  · intro a b _ ha hb
    have hpos : 0 < Real.sqrt (dotList a a) * Real.sqrt (dotList b b) := by
      have h1 : 0 ≤ Real.sqrt (dotList a a) := Real.sqrt_nonneg _
      have h2 : 0 ≤ Real.sqrt (dotList b b) := Real.sqrt_nonneg _
      exact mul_pos (lt_of_le_of_ne h1 (Ne.symm ha))
        (lt_of_le_of_ne h2 (Ne.symm hb))
    have habs : |cosine_similarity a b| ≤ 1 := by
      rw [cosine_eq ha hb, abs_div, abs_of_pos hpos, div_le_one hpos]
      exact abs_dotList_le a b
    exact abs_le.mp habs
  · intro a ha
    have hA : dotList a a ≠ 0 := by
      intro h
      exact ha (by rw [h, Real.sqrt_zero])
    rw [cosine_eq ha ha, Real.mul_self_sqrt (dotList_self_nonneg a),
      div_self hA]
    norm_num
  · intro a b hd
    have h0 : cosine_similarity a b = 0 := by
      simp only [cosine_similarity]
      split
      · rfl
      · rw [hd, zero_div]
    rw [h0]
    norm_num

/-- Witness for C6: the standard basis vectors `[1,0]` and `[0,1]` —
non-zero norms, equal length, zero dot product — instantiate the bound,
identical-vector and orthogonal-vector parts. -/
theorem cosine_similarity_props_witness :
    (Real.sqrt (dotList [(1 : ℝ), 0] [(1 : ℝ), 0]) ≠ 0 ∧
      Real.sqrt (dotList [(0 : ℝ), 1] [(0 : ℝ), 1]) ≠ 0 ∧
      ([(1 : ℝ), 0] : List ℝ).length = ([(0 : ℝ), 1] : List ℝ).length ∧
      dotList [(1 : ℝ), 0] [(0 : ℝ), 1] = 0) ∧
    ((-1 ≤ cosine_similarity [(1 : ℝ), 0] [(0 : ℝ), 1] ∧
        cosine_similarity [(1 : ℝ), 0] [(0 : ℝ), 1] ≤ 1) ∧
      |cosine_similarity [(1 : ℝ), 0] [(1 : ℝ), 0] - 1| ≤ 1 / 10000 ∧
      |cosine_similarity [(1 : ℝ), 0] [(0 : ℝ), 1]| ≤ 1 / 10000) :=
  ⟨⟨by norm_num [dotList], by norm_num [dotList], rfl, by norm_num [dotList]⟩,
    cosine_similarity_props.2.2.1 [(1 : ℝ), 0] [(0 : ℝ), 1] rfl
      (by norm_num [dotList]) (by norm_num [dotList]),
    cosine_similarity_props.2.2.2.1 [(1 : ℝ), 0] (by norm_num [dotList]),
    cosine_similarity_props.2.2.2.2 [(1 : ℝ), 0] [(0 : ℝ), 1]
      (by norm_num [dotList])⟩

/-! ## Claim C2 -/

/-- Membership in the journalist similarity scan, characterised: a pair
is produced exactly by a stored journalist embedding meeting the
threshold whose looked-up profile is accepting pitches. -/
lemma mem_similar_journalist_results {db : DB} {v : List ℝ} {t : ℝ}
    {p : JournalistProfile × ℝ} :
    p ∈ similar_journalist_results db v t ↔
    ∃ e ∈ db.embeddings, e.profile_type = ProfileType.journalist ∧
      t ≤ cosine_similarity v e.embedding ∧
      (db.journalists.filter
        (fun j => decide (j.id = e.profile_id))).head? = some p.1 ∧
      p.1.is_accepting_pitches = true ∧
      p.2 = cosine_similarity v e.embedding := by
  rw [similar_journalist_results, List.mem_filterMap]
  constructor
  · rintro ⟨e, he, hf⟩
    rw [List.mem_filter, decide_eq_true_eq] at he
    refine ⟨e, he.1, he.2, ?_⟩
    simp only at hf
    by_cases ht : t ≤ cosine_similarity v e.embedding
    · rw [if_pos ht] at hf
      rcases hh : (db.journalists.filter
          (fun j => decide (j.id = e.profile_id))).head? with _ | j
      · rw [hh] at hf
        exact absurd hf (by simp)
      · rw [hh] at hf
        by_cases hacc : j.is_accepting_pitches
        · simp only [hacc, if_true] at hf
          obtain rfl : (j, cosine_similarity v e.embedding) = p := by
            injection hf
          exact ⟨ht, hh, hacc, rfl⟩
        · simp [hacc] at hf
    · rw [if_neg ht] at hf
      exact absurd hf (by simp)
  · rintro ⟨e, he, hty, ht, hh, hacc, hsim⟩
    refine ⟨e, List.mem_filter.2 ⟨he, by simp [hty]⟩, ?_⟩
    simp only
    rw [if_pos ht, hh]
    simp [hacc, ← hsim]

/-- Membership in the company similarity scan, characterised. -/
lemma mem_similar_company_results {db : DB} {v : List ℝ} {t : ℝ}
    {p : CompanyProfile × ℝ} :
    p ∈ similar_company_results db v t ↔
    ∃ e ∈ db.embeddings, e.profile_type = ProfileType.company ∧
      t ≤ cosine_similarity v e.embedding ∧
      (db.companies.filter
        (fun c => decide (c.id = e.profile_id))).head? = some p.1 ∧
      p.1.is_active = true ∧
      p.2 = cosine_similarity v e.embedding := by
  rw [similar_company_results, List.mem_filterMap]
  constructor
  · rintro ⟨e, he, hf⟩
    rw [List.mem_filter, decide_eq_true_eq] at he
    refine ⟨e, he.1, he.2, ?_⟩
    simp only at hf
    by_cases ht : t ≤ cosine_similarity v e.embedding
    · rw [if_pos ht] at hf
      rcases hh : (db.companies.filter
          (fun c => decide (c.id = e.profile_id))).head? with _ | c
      · rw [hh] at hf
        exact absurd hf (by simp)
      · rw [hh] at hf
        by_cases hacc : c.is_active
        · simp only [hacc, if_true] at hf
          obtain rfl : (c, cosine_similarity v e.embedding) = p := by
            injection hf
          exact ⟨ht, hh, hacc, rfl⟩
        · simp [hacc] at hf
    · rw [if_neg ht] at hf
      exact absurd hf (by simp)
  · rintro ⟨e, he, hty, ht, hh, hacc, hsim⟩
    refine ⟨e, List.mem_filter.2 ⟨he, by simp [hty]⟩, ?_⟩
    simp only
    rw [if_pos ht, hh]
    simp [hacc, ← hsim]

/-- With the requester's embedding present, `find_similar_journalists`
is the sorted-and-truncated scan. -/
lemma find_similar_journalists_eq {db : DB} {cid : String} {t : ℝ}
    {limit : ℕ} {ce : ProfileEmbedding}
    (h : get_embedding db ProfileType.company cid = some ce) :
    find_similar_journalists db cid t limit =
      ((similar_journalist_results db ce.embedding t).insertionSort
        simGE).take limit := by
  rw [find_similar_journalists, h]

/-- With the requester's embedding present, `find_similar_companies`
is the sorted-and-truncated scan. -/
lemma find_similar_companies_eq {db : DB} {jid : String} {t : ℝ}
    {limit : ℕ} {je : ProfileEmbedding}
    (h : get_embedding db ProfileType.journalist jid = some je) :
    find_similar_companies db jid t limit =
      ((similar_company_results db je.embedding t).insertionSort
        simGE).take limit := by
  rw [find_similar_companies, h]

/-- Taking a prefix of a stable sort: every kept element is one of the
originals, the prefix is sorted, it fits the limit, when the whole
candidate list fits the limit nothing is dropped, when it overflows
exactly `limit` elements are kept, and every dropped candidate scores no
higher than any kept one. -/
lemma sort_take_facts {α : Type} (cand : List (α × ℝ)) (limit : ℕ) :
    (∀ p ∈ (cand.insertionSort simGE).take limit, p ∈ cand) ∧
    List.Sorted simGE ((cand.insertionSort simGE).take limit) ∧
    ((cand.insertionSort simGE).take limit).length ≤ limit ∧
    (cand.length ≤ limit →
      ∀ p, p ∈ (cand.insertionSort simGE).take limit ↔ p ∈ cand) ∧
    (limit ≤ cand.length →
      ((cand.insertionSort simGE).take limit).length = limit) ∧
    (∀ p ∈ (cand.insertionSort simGE).take limit, ∀ q ∈ cand,
      q ∉ (cand.insertionSort simGE).take limit → q.2 ≤ p.2) := by
  have hperm := List.perm_insertionSort simGE cand
  refine ⟨?_, ?_, ?_, ?_, ?_, ?_⟩
  · intro p hp
    exact hperm.mem_iff.mp (List.take_subset _ _ hp)
  · exact List.Pairwise.sublist (List.take_sublist _ _)
      (List.sorted_insertionSort simGE cand)
  · rw [List.length_take]
    exact min_le_left _ _
  · intro hlen p
    rw [List.take_of_length_le (by rw [hperm.length_eq]; exact hlen)]
    exact hperm.mem_iff
  · intro hlen
    rw [List.length_take, hperm.length_eq]
    exact min_eq_left hlen
  · intro p hp q hq hqnot
    have hqs : q ∈ cand.insertionSort simGE := hperm.mem_iff.mpr hq
    have hsplit : cand.insertionSort simGE =
        (cand.insertionSort simGE).take limit ++
          (cand.insertionSort simGE).drop limit :=
      (List.take_append_drop _ _).symm
    have hqdrop : q ∈ (cand.insertionSort simGE).drop limit := by
      rcases List.mem_append.mp (hsplit ▸ hqs) with h | h
      · exact absurd h hqnot
      · exact h
    have hsorted := List.sorted_insertionSort simGE cand
    have hcross := (List.pairwise_append.mp (hsplit ▸ hsorted)).2.2
    exact hcross p hp q hqdrop

/-- Claim C2: with the requester's embedding stored, each similarity
search returns exactly the opposite-side profiles whose stored embedding
has cosine similarity at least `min_similarity` to the requester's vector
and whose eligibility flag is set, sorted by similarity descending and
truncated to at most `limit` entries: every returned pair qualifies,
the result is sorted and fits the limit, every qualifying pair is
returned when they all fit, and when they overflow exactly `limit`
entries are returned and no dropped qualifying pair scores above any
returned one (a top-`limit` selection). -/
theorem find_similar_characterization :
    (∀ (db : DB) (cid : String) (t : ℝ) (limit : ℕ)
        (ce : ProfileEmbedding),
      get_embedding db ProfileType.company cid = some ce →
      (∀ p ∈ find_similar_journalists db cid t limit,
        p.1.is_accepting_pitches = true ∧ t ≤ p.2 ∧
        ∃ e ∈ db.embeddings, e.profile_type = ProfileType.journalist ∧
          (db.journalists.filter
            (fun j => decide (j.id = e.profile_id))).head? = some p.1 ∧
          p.2 = cosine_similarity ce.embedding e.embedding) ∧
      List.Sorted simGE (find_similar_journalists db cid t limit) ∧
      (find_similar_journalists db cid t limit).length ≤ limit ∧
      ((similar_journalist_results db ce.embedding t).length ≤ limit →
        ∀ (e : ProfileEmbedding) (j : JournalistProfile),
          e ∈ db.embeddings → e.profile_type = ProfileType.journalist →
          t ≤ cosine_similarity ce.embedding e.embedding →
          (db.journalists.filter
            (fun x => decide (x.id = e.profile_id))).head? = some j →
          j.is_accepting_pitches = true →
          (j, cosine_similarity ce.embedding e.embedding) ∈
            find_similar_journalists db cid t limit) ∧
      (limit ≤ (similar_journalist_results db ce.embedding t).length →
        (find_similar_journalists db cid t limit).length = limit) ∧
      (∀ p ∈ find_similar_journalists db cid t limit,
        ∀ q ∈ similar_journalist_results db ce.embedding t,
          q ∉ find_similar_journalists db cid t limit → q.2 ≤ p.2)) ∧
    (∀ (db : DB) (jid : String) (t : ℝ) (limit : ℕ)
        (je : ProfileEmbedding),
      get_embedding db ProfileType.journalist jid = some je →
      (∀ p ∈ find_similar_companies db jid t limit,
        p.1.is_active = true ∧ t ≤ p.2 ∧
        ∃ e ∈ db.embeddings, e.profile_type = ProfileType.company ∧
          (db.companies.filter
            (fun x => decide (x.id = e.profile_id))).head? = some p.1 ∧
          p.2 = cosine_similarity je.embedding e.embedding) ∧
      List.Sorted simGE (find_similar_companies db jid t limit) ∧
      (find_similar_companies db jid t limit).length ≤ limit ∧
      ((similar_company_results db je.embedding t).length ≤ limit →
        ∀ (e : ProfileEmbedding) (c : CompanyProfile),
          e ∈ db.embeddings → e.profile_type = ProfileType.company →
          t ≤ cosine_similarity je.embedding e.embedding →
          (db.companies.filter
            (fun x => decide (x.id = e.profile_id))).head? = some c →
          c.is_active = true →
          (c, cosine_similarity je.embedding e.embedding) ∈
            find_similar_companies db jid t limit) ∧
      (limit ≤ (similar_company_results db je.embedding t).length →
        (find_similar_companies db jid t limit).length = limit) ∧
      (∀ p ∈ find_similar_companies db jid t limit,
        ∀ q ∈ similar_company_results db je.embedding t,
          q ∉ find_similar_companies db jid t limit → q.2 ≤ p.2)) := by
  constructor
  · intro db cid t limit ce h
    obtain ⟨hsound, hsorted, hlen, hcomplete, hlenEq, htop⟩ :=
      sort_take_facts (similar_journalist_results db ce.embedding t) limit
    rw [find_similar_journalists_eq h]
    refine ⟨?_, hsorted, hlen, ?_, hlenEq, htop⟩
    · intro p hp
      obtain ⟨e, he, hty, ht, hh, hacc, hsim⟩ :=
        mem_similar_journalist_results.mp (hsound p hp)
      exact ⟨hacc, hsim ▸ ht, e, he, hty, hh, hsim⟩
    · intro hlen' e j he hty ht hh hacc
      rw [hcomplete hlen', mem_similar_journalist_results]
      exact ⟨e, he, hty, ht, hh, hacc, rfl⟩
  · intro db jid t limit je h
    obtain ⟨hsound, hsorted, hlen, hcomplete, hlenEq, htop⟩ :=
      sort_take_facts (similar_company_results db je.embedding t) limit
    rw [find_similar_companies_eq h]
    refine ⟨?_, hsorted, hlen, ?_, hlenEq, htop⟩
    · intro p hp
      obtain ⟨e, he, hty, ht, hh, hacc, hsim⟩ :=
        mem_similar_company_results.mp (hsound p hp)
      exact ⟨hacc, hsim ▸ ht, e, he, hty, hh, hsim⟩
    · intro hlen' e c he hty ht hh hacc
      rw [hcomplete hlen', mem_similar_company_results]
      exact ⟨e, he, hty, ht, hh, hacc, rfl⟩

/-- Witness for C2: a store holding exactly one company embedding — the
requester's lookup succeeds, the journalist-side scan is empty, and the
theorem's soundness and completeness parts apply. -/
theorem find_similar_characterization_witness :
    (get_embedding dbC2 ProfileType.company "c1" = some embC2 ∧
      (similar_journalist_results dbC2 embC2.embedding (3 / 10)).length ≤
        20) ∧
    ((find_similar_journalists dbC2 "c1" (3 / 10) 20).length ≤ 20 ∧
      List.Sorted simGE (find_similar_journalists dbC2 "c1" (3 / 10) 20)) :=
  ⟨⟨rfl, by
      simp [show similar_journalist_results dbC2 embC2.embedding (3 / 10) =
        [] from rfl]⟩,
    (find_similar_characterization.1 dbC2 "c1" (3 / 10) 20 embC2
      rfl).2.2.1,
    (find_similar_characterization.1 dbC2 "c1" (3 / 10) 20 embC2
      rfl).2.1⟩

end AIPR
